import Mathlib

/-!
Shallow embedding of `src/GccApplication5/timer0.c` (AVR timer0 driver for a
two-digit seven-segment display) and verification of its specification.

Machine integers are modelled as `Nat` with explicit `% 2 ^ w` where the C
code's overflow behaviour matters.  The AVR I/O registers touched by the
driver, the global variables `clock_ticks` and `digit`, and the global
interrupt-enable flag (the I bit of SREG) form the machine state.  Fallible
operations (an out-of-bounds array read is undefined behaviour in C) return
`Option`.
-/

/-- Bit position `WGM01` in `TCCR0A` (from the AVR device header). -/
def WGM01 : Nat := 1

/-- Bit position `CS00` in `TCCR0B` (from the AVR device header). -/
def CS00 : Nat := 0

/-- Bit position `CS01` in `TCCR0B` (from the AVR device header). -/
def CS01 : Nat := 1

/-- Bit position `OCIE0A` in `TIMSK0` (from the AVR device header). -/
def OCIE0A : Nat := 1

/-- Bit position `OCF0A` in `TIFR0` (from the AVR device header). -/
def OCF0A : Nat := 1

/-- Bit position `DDRC0` in `DDRC` (from the AVR device header). -/
def DDRC0 : Nat := 0

/-- Conversion of a C `int` value to `uint8_t` (reduction modulo 256,
well defined in C also for negative values). -/
def u8 (x : Int) : Nat := (x % 256).toNat

/-- The machine state seen by `timer0.c`: the two globals
(`clock_ticks : uint32_t`, `digit : uint8_t`), the I/O registers the driver
reads or writes, and the global interrupt-enable flag (SREG I bit),
modelled as a `Bool`. -/
structure MachState where
  clock_ticks : Nat
  digit : Nat
  PORTA : Nat
  PORTC : Nat
  DDRA : Nat
  DDRC : Nat
  TCNT0 : Nat
  OCR0A : Nat
  TCCR0A : Nat
  TCCR0B : Nat
  TIMSK0 : Nat
  TIFR0 : Nat
  SREG_I : Bool
deriving DecidableEq

/-- The AVR power-on state: all registers and globals zero, global
interrupts enabled (a convenient concrete state for witnesses). -/
def powerOn : MachState :=
  { clock_ticks := 0, digit := 0, PORTA := 0, PORTC := 0, DDRA := 0, DDRC := 0,
    TCNT0 := 0, OCR0A := 0, TCCR0A := 0, TCCR0B := 0, TIMSK0 := 0, TIFR0 := 0,
    SREG_I := true }

/-- `uint8_t seven_seg[10] = {63,6,91, 79, 102, 109,125,7,127,111};` -/
def seven_seg : List Nat := [63, 6, 91, 79, 102, 109, 125, 7, 127, 111]

/-- `void init_timer0(void)`: the register writes of the configuration
routine, line by line. -/
def init_timer0 (s : MachState) : MachState :=
  { s with
    clock_ticks := 0,
    TCNT0 := 0,
    OCR0A := 124,
    TCCR0A := 1 <<< WGM01,
    TCCR0B := (1 <<< CS01) ||| (1 <<< CS00),
    TIMSK0 := s.TIMSK0 ||| (1 <<< OCIE0A),
    TIFR0 := s.TIFR0 &&& (1 <<< OCF0A),
    DDRA := 0xFF,
    DDRC := 1 <<< DDRC0,
    digit := 0 }

/-- `cli()`: clear the global interrupt-enable flag. -/
def cli (s : MachState) : MachState := { s with SREG_I := false }

/-- `sei()`: set the global interrupt-enable flag. -/
def sei (s : MachState) : MachState := { s with SREG_I := true }

/-- `uint32_t get_clock_ticks(void)`: save the I bit, disable interrupts,
copy the counter, restore the I bit only if it was set, return the copy. -/
def get_clock_ticks (s : MachState) : MachState × Nat :=
  let interrupts_were_on := s.SREG_I
  let s1 := cli s
  let return_value := s1.clock_ticks
  let s2 := if interrupts_were_on then sei s1 else s1
  (s2, return_value)

/-- `void display_length(uint8_t snakeLength, uint8_t digit)`.  The
parameter `digit` is passed by value and shadows the global `digit`; its
assignments inside the body act on the local copy only, so the function is
modelled as returning the new machine state together with the final value of
the local parameter (which the caller discards).  The array reads
`seven_seg[snakeLength % 10]` and `seven_seg[snakeLength / 10]` are modelled
with `List.get?`: an out-of-bounds index yields `none` (undefined behaviour
in the C source). -/
def display_length (s : MachState) (snakeLength digitParam : Nat) :
    Option (MachState × Nat) :=
  if digitParam = 0 then
    (seven_seg.get? (snakeLength % 10)).map
      (fun p => ({ s with PORTA := p }, (digitParam + 1) % 256))
  else
    (seven_seg.get? (snakeLength / 10)).map
      (fun p => ({ s with PORTA := p }, u8 (1 - (digitParam : Int))))

/-- `ISR(TIMER0_COMPA_vect)`: increment `clock_ticks` (32-bit wraparound),
then call `display_length(get_snake_length(), digit)` with the global
`digit`.  The value returned by the external collaborator
`get_snake_length()` is the parameter `snake_length`.  The final value of
`display_length`'s local `digit` parameter is discarded, exactly as in the
C call. -/
def ISR_TIMER0_COMPA_vect (s : MachState) (snake_length : Nat) :
    Option MachState :=
  let s1 := { s with clock_ticks := (s.clock_ticks + 1) % 2 ^ 32 }
  (display_length s1 snake_length s1.digit).map Prod.fst

/-- A sequence of interrupt firings: one `ISR_TIMER0_COMPA_vect` call per
element of `lens`, each element being the value `get_snake_length()` returns
at that firing. -/
def run_isr : MachState → List Nat → Option MachState
  | s, [] => some s
  | s, len :: rest =>
    match ISR_TIMER0_COMPA_vect s len with
    | none => none
    | some s1 => run_isr s1 rest

/-! ### Helper lemmas -/

/-- In-range reads of the ten-entry pattern table succeed. -/
theorem seven_seg_get?_lt (i : Nat) (h : i < 10) :
    seven_seg.get? i = some (seven_seg.getD i 0) := by
  interval_cases i <;> rfl

/-- `display_length` on the right-digit path: always succeeds, writes the
pattern of `len % 10`, sets the local parameter copy to 1. -/
theorem display_length_right (s : MachState) (len : Nat) :
    display_length s len 0 =
      some ({ s with PORTA := seven_seg.getD (len % 10) 0 }, 1) := by
  unfold display_length
  rw [if_pos rfl, seven_seg_get?_lt (len % 10) (Nat.mod_lt len (by norm_num))]
  rfl

/-- The interrupt handler from any state whose global `digit` is 0:
it increments the counter modulo `2 ^ 32` and writes the right-digit
pattern; the global `digit` is untouched. -/
theorem isr_right (t : MachState) (h : t.digit = 0) (l : Nat) :
    ISR_TIMER0_COMPA_vect t l =
      some { t with clock_ticks := (t.clock_ticks + 1) % 2 ^ 32,
                    PORTA := seven_seg.getD (l % 10) 0 } := by
  simp [ISR_TIMER0_COMPA_vect, h, display_length_right]

/-- Invariant of interrupt sequences started with global `digit = 0`:
every firing succeeds, `digit` stays 0, and the counter advances by the
number of firings modulo `2 ^ 32`. -/
theorem run_isr_digit0 (lens : List Nat) : ∀ t : MachState,
    t.digit = 0 → t.clock_ticks < 2 ^ 32 →
    ∃ t', run_isr t lens = some t' ∧ t'.digit = 0 ∧
      t'.clock_ticks < 2 ^ 32 ∧
      t'.clock_ticks = (t.clock_ticks + lens.length) % 2 ^ 32 := by
  induction lens with
  | nil =>
    intro t h hlt
    exact ⟨t, rfl, h, hlt, by simpa using (Nat.mod_eq_of_lt hlt).symm⟩
  | cons l rest ih =>
    intro t h hlt
    obtain ⟨t', hrun, hd, hlt', hct⟩ :=
      ih { t with clock_ticks := (t.clock_ticks + 1) % 2 ^ 32,
                  PORTA := seven_seg.getD (l % 10) 0 }
        h (Nat.mod_lt _ (by norm_num))
    refine ⟨t', ?_, hd, hlt', ?_⟩
    · simp only [run_isr, isr_right t h l]
      exact hrun
    · simpa [Nat.mod_add_mod, Nat.add_assoc, Nat.add_comm, Nat.add_left_comm]
        using hct

/-! ### Claim theorems -/

/-- C6: for every digit value v in 0..9, the lookup table `seven_seg` maps
v to the canonical seven-segment encoding: 0 to 63, 1 to 6, 2 to 91,
3 to 79, 4 to 102, 5 to 109, 6 to 125, 7 to 7, 8 to 127, 9 to 111. -/
theorem seven_seg_canonical :
    seven_seg.get? 0 = some 63 ∧ seven_seg.get? 1 = some 6 ∧
    seven_seg.get? 2 = some 91 ∧ seven_seg.get? 3 = some 79 ∧
    seven_seg.get? 4 = some 102 ∧ seven_seg.get? 5 = some 109 ∧
    seven_seg.get? 6 = some 125 ∧ seven_seg.get? 7 = some 7 ∧
    seven_seg.get? 8 = some 127 ∧ seven_seg.get? 9 = some 111 := by
  decide

/-- C8: the configuration routine writes 124, which equals
`clock_hz / divider / 1000 - 1` for an 8 MHz clock and divider 64, to the
compare register `OCR0A`, and selects divider 64 by setting CS01 and CS00
in `TCCR0B`. -/
theorem init_timer0_compare_threshold : ∀ s : MachState,
    (init_timer0 s).OCR0A = 124 ∧
    (init_timer0 s).OCR0A = 8000000 / 64 / 1000 - 1 ∧
    (init_timer0 s).TCCR0B = (1 <<< CS01) ||| (1 <<< CS00) := by
  intro s
  exact ⟨rfl, rfl, rfl⟩

/-- C5: `get_clock_ticks` reads the counter in the interrupt-disabled state
produced by `cli`, and on every exit path it returns with the machine state
(in particular the global interrupt-enable flag) exactly as it was on
entry: interrupts disabled on entry remain disabled on return. -/
theorem get_clock_ticks_frame : ∀ s : MachState,
    (get_clock_ticks s).2 = (cli s).clock_ticks ∧
    (cli s).SREG_I = false ∧
    (get_clock_ticks s).1 = s := by
  intro s
  refine ⟨rfl, rfl, ?_⟩
  cases s with
  | mk ct dg pa pc da dc tc oc ta tb tm tf si =>
    cases si <;> simp [get_clock_ticks, cli, sei]

/-- C7: calling `init_timer0` twice in a row leaves the tick counter at 0
and the digit selector at 0 (RIGHT); the whole state reset is idempotent. -/
theorem init_timer0_idempotent : ∀ s : MachState,
    (init_timer0 (init_timer0 s)).clock_ticks = 0 ∧
    (init_timer0 (init_timer0 s)).digit = 0 ∧
    init_timer0 (init_timer0 s) = init_timer0 s := by
  intro s
  refine ⟨rfl, rfl, ?_⟩
  cases s with
  | mk ct dg pa pc da dc tc oc ta tb tm tf si =>
    simp [init_timer0, Nat.or_assoc, Nat.or_self, Nat.and_assoc, Nat.and_self]

/-- C3: from the initialized state, every sequence of N interrupt firings
succeeds, leaves the counter at N mod 2^32, and `get_clock_ticks` then
returns N mod 2^32; moreover each further handler invocation from the
reached state increments the counter by exactly one modulo 2^32
(wraparound, not an error). -/
theorem clock_ticks_count : ∀ (s : MachState) (lens : List Nat),
    ∃ s', run_isr (init_timer0 s) lens = some s' ∧
      s'.clock_ticks = lens.length % 2 ^ 32 ∧
      (get_clock_ticks s').2 = lens.length % 2 ^ 32 ∧
      ∀ l : Nat, ∃ s'', ISR_TIMER0_COMPA_vect s' l = some s'' ∧
        s''.clock_ticks = (s'.clock_ticks + 1) % 2 ^ 32 := by
  intro s lens
  obtain ⟨s', hrun, hd, hlt, hct⟩ :=
    run_isr_digit0 lens (init_timer0 s) rfl (by norm_num [init_timer0])
  have hct' : s'.clock_ticks = lens.length % 2 ^ 32 := by
    simpa [init_timer0] using hct
  exact ⟨s', hrun, hct', hct', fun l => ⟨_, isr_right s' hd l, rfl⟩⟩

/-- Any successful `display_length` call leaves the global `digit`, the
port `PORTC` and the counter `clock_ticks` unchanged: only `PORTA` and the
discarded local parameter copy are written. -/
theorem display_length_some (s : MachState) (len d : Nat) (r : MachState × Nat)
    (h : display_length s len d = some r) :
    r.1.digit = s.digit ∧ r.1.PORTC = s.PORTC ∧ r.1.clock_ticks = s.clock_ticks := by
  unfold display_length at h
  split at h <;>
  · obtain ⟨p, hp, rfl⟩ := Option.map_eq_some'.mp h
    exact ⟨rfl, rfl, rfl⟩

/-- Any successful interrupt firing leaves the global `digit` and `PORTC`
unchanged. -/
theorem isr_some (s : MachState) (l : Nat) (s' : MachState)
    (h : ISR_TIMER0_COMPA_vect s l = some s') :
    s'.digit = s.digit ∧ s'.PORTC = s.PORTC := by
  unfold ISR_TIMER0_COMPA_vect at h
  obtain ⟨r, hr, rfl⟩ := Option.map_eq_some'.mp h
  obtain ⟨h1, h2, _⟩ := display_length_some _ l _ r hr
  exact ⟨h1, h2⟩

/-- C9: every call to `display_length` leaves the global `digit` unchanged
(the toggle writes the shadowing local parameter); hence after
initialization the global selector stays 0 (RIGHT) across every sequence of
interrupt firings, and every invocation takes the right-digit path, writing
the pattern of `len % 10`. -/
theorem global_digit_never_toggled :
    (∀ (s : MachState) (len d : Nat) (r : MachState × Nat),
        display_length s len d = some r → r.1.digit = s.digit) ∧
    (∀ (s : MachState) (lens : List Nat),
        ∃ s', run_isr (init_timer0 s) lens = some s' ∧ s'.digit = 0) ∧
    (∀ (t : MachState) (l : Nat), t.digit = 0 →
        ∃ t', ISR_TIMER0_COMPA_vect t l = some t' ∧
          t'.PORTA = seven_seg.getD (l % 10) 0 ∧ t'.digit = 0) := by
  refine ⟨?_, ?_, ?_⟩
  · intro s len d r h
    exact (display_length_some s len d r h).1
  · intro s lens
    obtain ⟨s', hrun, hd, _, _⟩ :=
      run_isr_digit0 lens (init_timer0 s) rfl (by norm_num [init_timer0])
    exact ⟨s', hrun, hd⟩
  · intro t l h
    exact ⟨_, isr_right t h l, rfl, h⟩

/-- C9 witness: concrete instances of the three conjuncts, at a left-path
call `display_length powerOn 42 1` and at the firing
`ISR_TIMER0_COMPA_vect powerOn 42`. -/
theorem global_digit_never_toggled_witness :
    (({ powerOn with PORTA := 102 }, (0 : Nat)) : MachState × Nat).1.digit
        = powerOn.digit ∧
    (∃ s', run_isr (init_timer0 powerOn) [42] = some s' ∧ s'.digit = 0) ∧
    (∃ t', ISR_TIMER0_COMPA_vect powerOn 42 = some t' ∧
        t'.PORTA = seven_seg.getD (42 % 10) 0 ∧ t'.digit = 0) :=
  ⟨global_digit_never_toggled.1 powerOn 42 1 _ (by decide),
   global_digit_never_toggled.2.1 powerOn [42],
   global_digit_never_toggled.2.2 powerOn 42 rfl⟩

/-- C10: initialization configures PORTC pin 0 as an output (`DDRC`), and
neither `display_length` nor the interrupt handler ever writes `PORTC`:
the digit-select line's output value is never changed by any call. -/
theorem portc_never_written :
    (∀ s : MachState, (init_timer0 s).DDRC = 1 <<< DDRC0) ∧
    (∀ (s : MachState) (len d : Nat) (r : MachState × Nat),
        display_length s len d = some r → r.1.PORTC = s.PORTC) ∧
    (∀ (s : MachState) (l : Nat) (s' : MachState),
        ISR_TIMER0_COMPA_vect s l = some s' → s'.PORTC = s.PORTC) := by
  refine ⟨fun s => rfl, ?_, ?_⟩
  · intro s len d r h
    exact (display_length_some s len d r h).2.1
  · intro s l s' h
    exact (isr_some s l s' h).2

/-- C10 witness: concrete instances at `display_length powerOn 37 0` and
at the firing `ISR_TIMER0_COMPA_vect powerOn 0`. -/
theorem portc_never_written_witness :
    (init_timer0 powerOn).DDRC = 1 <<< DDRC0 ∧
    (({ powerOn with PORTA := 7 }, (1 : Nat)) : MachState × Nat).1.PORTC
        = powerOn.PORTC ∧
    ({ powerOn with clock_ticks := 1, PORTA := 63 } : MachState).PORTC
        = powerOn.PORTC :=
  ⟨portc_never_written.1 powerOn,
   portc_never_written.2.1 powerOn 37 0 _ (by decide),
   portc_never_written.2.2 powerOn 0 _ (by decide)⟩

/-- C1: evaluation at the failing input.  From the initialized state, two
successive interrupt firings with value 37 both leave the global selector at
0 and both write the right-digit pattern 7 to PORTA: the toggle inside
`display_length` writes the shadowing local parameter, so the selector never
transitions and the second call does not write the left-digit pattern
(`seven_seg.getD 3 0 = 79`). -/
theorem selector_never_alternates :
    ∃ s1 s2, ISR_TIMER0_COMPA_vect (init_timer0 powerOn) 37 = some s1 ∧
      s1.digit = (init_timer0 powerOn).digit ∧ s1.digit = 0 ∧ s1.PORTA = 7 ∧
      ISR_TIMER0_COMPA_vect s1 37 = some s2 ∧
      s2.digit = 0 ∧ s2.PORTA = 7 ∧ s2.PORTA ≠ 79 := by
  refine ⟨{ init_timer0 powerOn with clock_ticks := 1, PORTA := 7 },
          { init_timer0 powerOn with clock_ticks := 2, PORTA := 7 },
          ?_, ?_, ?_, ?_, ?_, ?_, ?_, ?_⟩ <;> decide

/-- C4: evaluation at the failing input 37.  The first firing (selector at
RIGHT) writes the pattern of digit 7 (`seven_seg.getD 7 0 = 7`), as the
claim states; the second firing again writes the pattern of digit 7 via the
right-digit path instead of the pattern of digit 3 (`seven_seg.getD 3 0`)
via the left-digit path, because the selector is still 0. -/
theorem value37_second_call_not_left :
    ∃ s1 s2, ISR_TIMER0_COMPA_vect (init_timer0 powerOn) 37 = some s1 ∧
      s1.PORTA = seven_seg.getD 7 0 ∧ seven_seg.getD 7 0 = 7 ∧
      ISR_TIMER0_COMPA_vect s1 37 = some s2 ∧
      s2.PORTA = seven_seg.getD 7 0 ∧ s2.PORTA ≠ seven_seg.getD 3 0 := by
  refine ⟨{ init_timer0 powerOn with clock_ticks := 1, PORTA := 7 },
          { init_timer0 powerOn with clock_ticks := 2, PORTA := 7 },
          ?_, ?_, ?_, ?_, ?_, ?_⟩ <;> decide

/-- C2 counterexample: at input value 100 the left-digit path reads
`seven_seg[100 / 10]`, i.e. index 10, which is out of the ten-entry table's
range; the access fails (undefined behaviour in the C source) rather than
showing a mod-10 truncation of the index. -/
theorem left_lookup_out_of_range :
    seven_seg.get? (100 / 10) = none ∧ display_length powerOn 100 1 = none := by
  decide

/-- C2 amended: the right-digit lookup index `v % 10` is in the table's
range for every value, and the left-digit lookup index `v / 10` is in range
exactly for values up to 99; for values greater than 99 the left-digit read
is out of the table's bounds and the call fails (undefined behaviour in C),
with no mod-10 truncation artifact. -/
theorem display_length_index_range :
    (∀ (s : MachState) (v : Nat),
        ∃ r, display_length s v 0 = some r ∧
          r.1.PORTA = seven_seg.getD (v % 10) 0) ∧
    (∀ (s : MachState) (v : Nat), v ≤ 99 →
        ∃ r, display_length s v 1 = some r ∧
          r.1.PORTA = seven_seg.getD (v / 10) 0) ∧
    (∀ (s : MachState) (v : Nat), 99 < v →
        display_length s v 1 = none) := by
  refine ⟨?_, ?_, ?_⟩
  · intro s v
    exact ⟨_, display_length_right s v, rfl⟩
  · intro s v hv
    have hlt : v / 10 < 10 := by omega
    refine ⟨({ s with PORTA := seven_seg.getD (v / 10) 0 }, u8 (1 - (1 : Int))),
            ?_, rfl⟩
    unfold display_length
    rw [if_neg (by norm_num), seven_seg_get?_lt (v / 10) hlt]
    rfl
  · intro s v hv
    have hlen : seven_seg.length ≤ v / 10 := by
      have h10 : (10 : Nat) ≤ v / 10 := by omega
      simpa [seven_seg] using h10
    unfold display_length
    rw [if_neg (by norm_num), List.get?_eq_none.mpr hlen]
    rfl

/-- C2 amended witness: concrete instances — right path at the largest
8-bit value 255, left path at 99 (in range) and at 100 (out of range). -/
theorem display_length_index_range_witness :
    (∃ r, display_length powerOn 255 0 = some r ∧
        r.1.PORTA = seven_seg.getD (255 % 10) 0) ∧
    (∃ r, display_length powerOn 99 1 = some r ∧
        r.1.PORTA = seven_seg.getD (99 / 10) 0) ∧
    display_length powerOn 100 1 = none :=
  ⟨display_length_index_range.1 powerOn 255,
   display_length_index_range.2.1 powerOn 99 (by norm_num),
   display_length_index_range.2.2 powerOn 100 (by norm_num)⟩
